import Mathlib

/-!
Verification model of `day1/02_streamlit_app/ui.py`.

The file shallow-embeds the logic of the Streamlit UI module: the feedback
classifier and feedback-record assembly (`display_feedback_form`), the chat-page
session-state step (`display_chat_page`), the history filter and paginator
(`display_history_list`), and the metrics-analysis views
(`display_metrics_analysis`).

Modelling conventions:
* pandas `NaN` / absent values are `Option` `none`;
* floats are modelled as exact rationals `ℚ` (the numeric literals appearing in
  the source — `1.0`, `0.5`, `0.0`, `0.1` — and the arithmetic on them);
* a DataFrame is a `List Record`, one `Record` per row, in row order;
* Streamlit rendering calls (`st.bar_chart`, `st.info`, ...) are modelled by the
  data they would render; an `st.info`/`st.warning` "no data" branch is the
  empty/`none` value of the corresponding view;
* `pandas.sort_values` uses an unstable quicksort, so the order of items with
  equal keys is unspecified in the source; the model fixes a stable
  `insertionSort`, a legitimate refinement of that unspecified tie order.
-/

/-- One row of the chat-history DataFrame (`get_chat_history()`), restricted to
the columns the analysed functions read.  `is_correct` is the stored accuracy
score (absent until feedback is given); the three automated metric columns and
`word_count`/`response_time` may be absent (`NaN`). -/
structure Record where
  id : Nat
  is_correct : Option ℚ
  response_time : Option ℚ
  bleu_score : Option ℚ
  similarity_score : Option ℚ
  relevance_score : Option ℚ
  word_count : Option ℚ
deriving DecidableEq, Repr

/-! ## Feedback form (`display_feedback_form`, ui.py lines 61–100) -/

/-- ui.py line 85:
`is_correct = 1.0 if feedback == "Accurate" else (0.5 if feedback == "Partially accurate" else 0.0)`.
This is the feedback classifier: it is a total function on strings; every label
other than the first two receives `0.0`. -/
def classifyFeedback (feedback : String) : ℚ :=
  if feedback = "Accurate" then 1
  else if feedback = "Partially accurate" then 1/2
  else 0

/-- The classifier as §4.3 of the spec describes it (`InvalidFeedbackLabel`
modelled as `none`): a partial map defined exactly on the three allowed labels.
This definition follows the SPEC's words, for comparison with
`classifyFeedback`, which follows the source. -/
def feedbackClassifierSpec (label : String) : Option ℚ :=
  if label = "Accurate" then some 1
  else if label = "Partially accurate" then some (1/2)
  else if label = "Inaccurate" then some 0
  else none

/-- ui.py lines 86–88: `combined_feedback = feedback`, then
`if feedback_comment: combined_feedback += f": {feedback_comment}"`
(Python truthiness of a string is non-emptiness). -/
def combinedFeedback (feedback feedback_comment : String) : String :=
  if feedback_comment ≠ "" then feedback ++ ": " ++ feedback_comment
  else feedback

/-- The argument tuple passed to `save_to_db` at ui.py lines 90–97. -/
structure SavedFeedback where
  question : String
  answer : String
  feedback : String
  correct_answer : String
  is_correct : ℚ
  response_time : ℚ
deriving DecidableEq, Repr

/-- ui.py lines 84–97: on submit, assemble the record handed to `save_to_db`. -/
def submitFeedback (current_question current_answer : String)
    (feedback correct_answer feedback_comment : String)
    (response_time : ℚ) : SavedFeedback :=
  { question := current_question
    answer := current_answer
    feedback := combinedFeedback feedback feedback_comment
    correct_answer := correct_answer
    is_correct := classifyFeedback feedback
    response_time := response_time }

/-! ## Chat page (`display_chat_page`, ui.py lines 11–58) -/

/-- The four session-state keys the chat page touches; `none` models a key not
yet present in `st.session_state`. -/
structure SessionState where
  current_question : Option String
  current_answer : Option String
  response_time : Option ℚ
  feedback_given : Option Bool
deriving DecidableEq, Repr

/-- ui.py lines 23–30: each key is set to its default only when absent. -/
def initSessionState (s : SessionState) : SessionState :=
  { current_question := some (s.current_question.getD "")
    current_answer := some (s.current_answer.getD "")
    response_time := some (s.response_time.getD 0)
    feedback_given := some (s.feedback_given.getD false) }

/-- ui.py lines 32–42: one step of the chat page.  Returns the resulting
session state and whether `generate_response` was called.  The guard is
`if submit_button and user_question:` (non-empty string); inside it the state
receives the question, the generated answer (`(generate_response q).1`), the
measured response time (`.2`), and a cleared feedback flag. -/
def displayChatPage (s : SessionState) (submit_button : Bool)
    (user_question : String) (generate_response : String → String × ℚ) :
    SessionState × Bool :=
  if submit_button = true ∧ user_question ≠ "" then
    ({ current_question := some user_question
       current_answer := some (generate_response user_question).1
       response_time := some (generate_response user_question).2
       feedback_given := some false }, true)
  else (initSessionState s, false)

/-! ## History list (`display_history_list`, ui.py lines 122–185) -/

/-- ui.py lines 125–130: the radio options and the filter value each maps to. -/
def filter_options : List (String × Option ℚ) :=
  [("Show All", none),
   ("Accurate only", some 1),
   ("Partially accurate only", some (1/2)),
   ("Inaccurate only", some 0)]

/-- ui.py lines 138–145: with a concrete filter value keep the rows whose
`is_correct` is not-NA and equals the value; with `None` keep everything. -/
def filterHistory (filter_value : Option ℚ) (history : List Record) :
    List Record :=
  match filter_value with
  | some v => history.filter (fun r => r.is_correct.isSome && decide (r.is_correct = some v))
  | none => history

/-- ui.py lines 151–164: page size 5, `total_pages = ceil(total/5)`, the
`st.number_input` widget constrains the page to `[1, total_pages]` (modelled as
clamping), and the page is the slice `[start_idx, start_idx+5)`.  The source
reaches this code only when the filtered list is non-empty (line 147 returns
early on empty). -/
def paginate (filtered : List Record) (page : Nat) : List Record :=
  let items_per_page := 5
  let total_items := filtered.length
  let total_pages := (total_items + items_per_page - 1) / items_per_page
  let current_page := min (max page 1) total_pages
  let start_idx := (current_page - 1) * items_per_page
  (filtered.drop start_idx).take items_per_page

/-! ## Metrics analysis (`display_metrics_analysis`, ui.py lines 188–276) -/

/-- ui.py line 192: `analysis_df = history_df.dropna(subset=['is_correct'])`. -/
def analysisOf (history : List Record) : List Record :=
  history.filter (fun r => r.is_correct.isSome)

/-- ui.py line 197: `accuracy_labels = {1.0: 'Accurate', 0.5: 'Partially accurate', 0.0: 'Inaccurate'}`. -/
def accuracy_labels : List (ℚ × String) :=
  [(1, "Accurate"), (1/2, "Partially accurate"), (0, "Inaccurate")]

/-- ui.py line 198: `analysis_df['is_correct'].map(accuracy_labels)`; a value
outside the dictionary maps to `NaN` (`none`). -/
def accuracyLabel (r : Record) : Option String :=
  r.is_correct.bind (fun v => (accuracy_labels.find? (fun p => decide (p.1 = v))).map (fun p => p.2))

/-- ui.py line 202: `analysis_df['Accuracy'].value_counts()` — the number of
rows per observed label (`value_counts` drops `NaN` and omits unobserved
values; it presents entries sorted by count, an ordering none of the verified
properties depend on, so the model lists the labels in dictionary order). -/
def accuracyCountsView (analysis : List Record) : List (String × Nat) :=
  (accuracy_labels.map
    (fun p => (p.2, (analysis.filter (fun r => decide (accuracyLabel r = some p.2))).length))).filter
    (fun p => decide (p.2 ≠ 0))

/-- ui.py line 210: `metric_options`. -/
def metric_options : List String :=
  ["bleu_score", "similarity_score", "relevance_score", "word_count"]

/-- ui.py line 238: `stats_cols`. -/
def stats_cols : List String :=
  ["response_time", "bleu_score", "similarity_score", "word_count", "relevance_score"]

/-- Column access by name (`analysis_df[c]` for the numeric columns used). -/
def getCol (r : Record) (c : String) : Option ℚ :=
  if c = "response_time" then r.response_time
  else if c = "bleu_score" then r.bleu_score
  else if c = "similarity_score" then r.similarity_score
  else if c = "word_count" then r.word_count
  else if c = "relevance_score" then r.relevance_score
  else none

/-- ui.py lines 211–214: the metric options whose column has at least one
non-NA value (all four names are always columns of the frame). -/
def validMetricOptions (analysis : List Record) : List String :=
  metric_options.filter (fun m => analysis.any (fun r => (getCol r m).isSome))

/-- ui.py lines 239–242: same for the statistics columns. -/
def valid_stats_cols (analysis : List Record) : List String :=
  stats_cols.filter (fun c => analysis.any (fun r => (getCol r c).isSome))

/-- ui.py line 223: `analysis_df[['response_time', m, 'Accuracy']].dropna()` —
the rows where all three of response time, the chosen metric and the accuracy
label are present. -/
def scatterData (analysis : List Record) (m : String) : List (ℚ × ℚ × String) :=
  analysis.filterMap (fun r =>
    match r.response_time, getCol r m, accuracyLabel r with
    | some t, some v, some lab => some (t, v, lab)
    | _, _, _ => none)

/-- ui.py lines 216–234: the scatter chart is drawn for a metric the user
selects among `validMetricOptions`; the model records the chart data for every
possible selection. -/
def scatterViewsOf (analysis : List Record) : List (String × List (ℚ × ℚ × String)) :=
  (validMetricOptions analysis).map (fun m => (m, scatterData analysis m))

/-- The non-NA values of a column, in row order. -/
def colValues (analysis : List Record) (c : String) : List ℚ :=
  analysis.filterMap (fun r => getCol r c)

/-- ui.py lines 243–245: `analysis_df[valid_stats_cols].describe()`.  Every
statistic `describe` reports (count, mean, std, min, max, quartiles) is a pure
function of the column's sequence of non-NA values, so the view is modelled by
those sequences, one per valid column. -/
def describeStatsView (analysis : List Record) : List (String × List ℚ) :=
  (valid_stats_cols analysis).map (fun c => (c, colValues analysis c))

/-- Arithmetic mean of a list of rationals; `none` on the empty list (pandas
`mean()` of an all-NaN column is `NaN`). -/
def meanQ (xs : List ℚ) : Option ℚ :=
  if xs.length = 0 then none else some (xs.sum / (xs.length : ℚ))

/-- One cell of `analysis_df.groupby('Accuracy')[valid_stats_cols].mean()`:
the mean of column `c` over the rows labelled `lab` (pandas skips NaN cells
inside the group). -/
def groupMean (analysis : List Record) (lab c : String) : Option ℚ :=
  meanQ ((analysis.filter (fun r => decide (accuracyLabel r = some lab))).filterMap
    (fun r => getCol r c))

/-- ui.py lines 250–258: the grouped-averages table.  `groupby` drops rows with
a `NaN` key, so only the three dictionary labels can form groups, and only when
observed; the guard on line 251 skips the table when `valid_stats_cols` is
empty.  (`groupby` orders group keys alphabetically; the verified properties do
not depend on row order, so the model lists groups in dictionary order.  The
`try`/`except` around it cannot fire in this model, where every mean is a total
rational computation.) -/
def groupedAveragesView (analysis : List Record) : List (String × List (String × Option ℚ)) :=
  if valid_stats_cols analysis = [] then []
  else
    ((accuracy_labels.map (fun p => p.2)).filter
      (fun lab => analysis.any (fun r => decide (accuracyLabel r = some lab)))).map
      (fun lab => (lab, (valid_stats_cols analysis).map (fun c => (c, groupMean analysis lab c))))

/-- ui.py line 263:
`analysis_df['is_correct'] / (analysis_df['response_time'].fillna(0) + 0.1)`.
`is_correct` is never NA in `analysis_df` (line 192); a missing response time
is replaced by `0` by `fillna(0)`. -/
def efficiency_score (r : Record) : ℚ :=
  r.is_correct.getD 0 / (r.response_time.getD 0 + 1/10)

/-- Each analysis row with its efficiency score (the frame after line 263). -/
def scoredRecords (analysis : List Record) : List (Record × ℚ) :=
  analysis.map (fun r => (r, efficiency_score r))

/-- The sort key of `sort_values('efficiency_score', ascending=False)`:
`a` may precede `b` when `a`'s score is at least `b`'s. -/
def effGE (a b : Record × ℚ) : Prop := b.2 ≤ a.2

instance : DecidableRel effGE := fun a b => inferInstanceAs (Decidable (b.2 ≤ a.2))

instance : IsTotal (Record × ℚ) effGE := ⟨fun a b => le_total b.2 a.2⟩

instance : IsTrans (Record × ℚ) effGE := ⟨fun _ _ _ h1 h2 => le_trans h2 h1⟩

/-- ui.py line 265: `analysis_df.sort_values('efficiency_score', ascending=False).head(10)`. -/
def topEfficiency (analysis : List Record) : List (Record × ℚ) :=
  (List.insertionSort effGE (scoredRecords analysis)).take 10

/-- ui.py lines 262–276: the efficiency-ranking view.  It is computed only when
the `response_time` column has at least one non-NA value (line 262); otherwise
the page shows an info message (`none`).  The chart plots
`top_efficiency.set_index('id')['efficiency_score']`: the `(id, score)` pairs
of the top rows (the `id` column is always present in this model, matching the
schema of `get_chat_history()`). -/
def efficiencyView (analysis : List Record) : Option (List (Nat × ℚ)) :=
  if analysis.any (fun r => r.response_time.isSome) then
    some ((topEfficiency analysis).map (fun p => (p.1.id, p.2)))
  else none

/-- The data rendered by `display_metrics_analysis` for a non-empty
`analysis_df`, one field per section of the page. -/
structure AnalysisViews where
  accuracy_counts : List (String × Nat)
  scatter_views : List (String × List (ℚ × ℚ × String))
  metrics_stats : List (String × List ℚ)
  accuracy_groups : List (String × List (String × Option ℚ))
  top_efficiency_chart : Option (List (Nat × ℚ))
deriving DecidableEq, Repr

/-- ui.py lines 188–276: the whole metrics-analysis page.  Line 193 returns
early (a warning, modelled `none`) when no row has feedback; otherwise each
section is computed independently from `analysis_df`. -/
def display_metrics_analysis (history : List Record) : Option AnalysisViews :=
  let analysis := analysisOf history
  if analysis = [] then none
  else some
    { accuracy_counts := accuracyCountsView analysis
      scatter_views := scatterViewsOf analysis
      metrics_stats := describeStatsView analysis
      accuracy_groups := groupedAveragesView analysis
      top_efficiency_chart := efficiencyView analysis }

/-! ## Concrete records used by witnesses and counterexamples -/

/-- A record with every optional field present and canonical values. -/
def rFull : Record :=
  { id := 2, is_correct := some 1, response_time := some 1,
    bleu_score := some (1/2), similarity_score := some (3/4),
    relevance_score := some (1/4), word_count := some 7 }

/-- A feedback-bearing record whose response time is absent. -/
def rNoTime : Record :=
  { id := 1, is_correct := some 1, response_time := none,
    bleu_score := none, similarity_score := none,
    relevance_score := none, word_count := none }

/-- A record with no feedback (`is_correct` absent). -/
def rNoFeedback : Record :=
  { id := 3, is_correct := none, response_time := some 2,
    bleu_score := some (1/5), similarity_score := none,
    relevance_score := some 1, word_count := some 3 }

/-- A feedback-bearing record whose stored score is outside {1, 1/2, 0}. -/
def rOddScore : Record :=
  { id := 4, is_correct := some (3/4), response_time := some 1,
    bleu_score := none, similarity_score := none,
    relevance_score := none, word_count := none }

/-! ## C1 — feedback classifier -/

/-- C1 counterexample: the claim says a label outside the three allowed ones
fails with an `InvalidFeedbackLabel` error and is assigned no numeric score;
on the concrete label "Wrong label" the code assigns the default score 0
(while the spec-worded classifier rejects it). -/
theorem c1_unknown_label_defaults_to_zero :
    classifyFeedback "Wrong label" = 0 ∧ feedbackClassifierSpec "Wrong label" = none := by
  exact ⟨rfl, rfl⟩

/-- C1 (amended): the classifier maps "Accurate" to 1.0 and
"Partially accurate" to 0.5, and every other label — "Inaccurate" included —
to 0.0; an unrecognized label is not rejected, it silently receives 0.0. -/
theorem c1_classifier_total_map :
    classifyFeedback "Accurate" = 1 ∧
    classifyFeedback "Partially accurate" = 1/2 ∧
    classifyFeedback "Inaccurate" = 0 ∧
    ∀ s : String, s ≠ "Accurate" → s ≠ "Partially accurate" → classifyFeedback s = 0 := by
  refine ⟨rfl, rfl, rfl, ?_⟩
  intro s h1 h2
  simp [classifyFeedback, h1, h2]

/-- C1 witness: the universally quantified clause applied at "Inaccurate". -/
theorem c1_classifier_total_map_witness :
    classifyFeedback "Inaccurate" = 0 :=
  c1_classifier_total_map.2.2.2 "Inaccurate" (by decide) (by decide)

/-! ## C3 — efficiency-score formula -/

/-- C3: for a record with both `accuracyScore` and `responseTimeSeconds`
present, the efficiency score is `accuracyScore / (responseTimeSeconds + 0.1)`;
the denominator is non-zero for every non-negative response time; and the two
concrete values from the spec hold exactly: score 10 at (1, 0) and 1/4 at
(1/2, 1.9). -/
theorem c3_efficiency_score_formula :
    (∀ (r : Record) (a t : ℚ), r.is_correct = some a → r.response_time = some t →
      0 ≤ t → efficiency_score r = a / (t + 1/10) ∧ t + 1/10 ≠ 0) ∧
    efficiency_score { rFull with is_correct := some 1, response_time := some 0 } = 10 ∧
    efficiency_score { rFull with is_correct := some (1/2), response_time := some (19/10) } = 1/4 := by
  refine ⟨?_, by norm_num [efficiency_score], by norm_num [efficiency_score]⟩
  intro r a t ha ht hnn
  constructor
  · simp [efficiency_score, ha, ht]
  · positivity

/-- C3 witness: the quantified clause applied to the concrete record `rFull`
(score 1, response time 1). -/
theorem c3_efficiency_score_formula_witness :
    efficiency_score rFull = 1 / (1 + 1/10) ∧ (1 : ℚ) + 1/10 ≠ 0 :=
  c3_efficiency_score_formula.1 rFull 1 1 rfl rfl (by norm_num)

/-! ## C4 — feedback comment never affects the score -/

/-- C4: two feedback submissions differing only in the optional free-text
comment store the same numeric `is_correct` score; a non-empty comment is
stored concatenated to the label as "label: comment". -/
theorem c4_comment_independent_score
    (feedback com1 com2 q a ca : String) (t : ℚ) :
    (submitFeedback q a feedback ca com1 t).is_correct =
      (submitFeedback q a feedback ca com2 t).is_correct ∧
    (com1 ≠ "" →
      (submitFeedback q a feedback ca com1 t).feedback = feedback ++ ": " ++ com1) := by
  refine ⟨rfl, ?_⟩
  intro h
  simp [submitFeedback, combinedFeedback, h]

/-- C4 witness: the theorem applied to the two comments "" and "too short",
with the non-emptiness hypothesis discharged on "too short". -/
theorem c4_comment_independent_score_witness :
    (submitFeedback "q" "a" "Accurate" "" "too short" 2).is_correct =
      (submitFeedback "q" "a" "Accurate" "" "" 2).is_correct ∧
    ("too short" ≠ "" →
      (submitFeedback "q" "a" "Accurate" "" "too short" 2).feedback = "Accurate" ++ ": " ++ "too short") :=
  c4_comment_independent_score "Accurate" "too short" "" "q" "a" "" 2

/-! ## C7 — history filter -/

/-- C7: for a target value among {1, 1/2, 0} the filter returns exactly the
records whose `is_correct` is present and equal to the target; with no filter
selected it returns the collection unchanged. -/
theorem c7_filter_exact (history : List Record) (v : ℚ)
    (hv : v = 1 ∨ v = 1/2 ∨ v = 0) :
    filterHistory (some v) history = history.filter (fun r => decide (r.is_correct = some v)) ∧
    filterHistory none history = history := by
  refine ⟨?_, rfl⟩
  unfold filterHistory
  apply List.filter_congr
  intro r _
  cases h : r.is_correct with
  | none => simp [h]
  | some w => simp [h]

/-- C7 witness: the filter applied at target 1 to a concrete three-record
history keeps exactly the record scored 1. -/
theorem c7_filter_exact_witness :
    filterHistory (some 1) [rFull, rNoFeedback, rOddScore] =
      List.filter (fun r => decide (r.is_correct = some 1)) [rFull, rNoFeedback, rOddScore] ∧
    filterHistory none [rFull, rNoFeedback, rOddScore] = [rFull, rNoFeedback, rOddScore] :=
  c7_filter_exact [rFull, rNoFeedback, rOddScore] 1 (Or.inl rfl)

/-! ## C6 — pagination -/

/-- C6: for a non-empty filtered collection, an in-range page `p` returns
exactly the slice `[(p-1)*5, p*5)`; a page beyond the last returns the last
page's result; and the returned page is never empty. -/
theorem c6_paginate_clamped (filtered : List Record) (page : Nat)
    (hne : filtered ≠ []) :
    (1 ≤ page → page ≤ (filtered.length + 4) / 5 →
      paginate filtered page = (filtered.drop ((page - 1) * 5)).take 5) ∧
    ((filtered.length + 4) / 5 < page →
      paginate filtered page = paginate filtered ((filtered.length + 4) / 5)) ∧
    paginate filtered page ≠ [] := by
  have hlen : 0 < filtered.length := List.length_pos.mpr hne
  refine ⟨?_, ?_, ?_⟩
  · intro h1 h2
    have hpc : min (max page 1) ((filtered.length + 5 - 1) / 5) = page := by omega
    simp only [paginate]
    rw [hpc]
  · intro h
    have ha : min (max page 1) ((filtered.length + 5 - 1) / 5) =
        (filtered.length + 5 - 1) / 5 := by omega
    have hb : min (max ((filtered.length + 4) / 5) 1) ((filtered.length + 5 - 1) / 5) =
        (filtered.length + 5 - 1) / 5 := by omega
    simp only [paginate]
    rw [ha, hb]
  · intro hcon
    have hl := congrArg List.length hcon
    simp only [paginate, List.length_take, List.length_drop, List.length_nil] at hl
    omega

/-- C6 witness: a concrete 12-record collection and the out-of-range page 100
(which clamps to the last page, page 3). -/
theorem c6_paginate_clamped_witness :
    (1 ≤ 100 → 100 ≤ (((List.replicate 12 rFull).length + 4) / 5) →
      paginate (List.replicate 12 rFull) 100 =
        ((List.replicate 12 rFull).drop ((100 - 1) * 5)).take 5) ∧
    (((List.replicate 12 rFull).length + 4) / 5 < 100 →
      paginate (List.replicate 12 rFull) 100 =
        paginate (List.replicate 12 rFull) (((List.replicate 12 rFull).length + 4) / 5)) ∧
    paginate (List.replicate 12 rFull) 100 ≠ [] :=
  c6_paginate_clamped (List.replicate 12 rFull) 100 (by decide)

/-! ## C9 — empty question performs no generation and no state change -/

/-- C9: submitting with empty question text never calls the generator and
leaves an already-initialized session state unchanged; the generator is called
exactly when the submit button is pressed with non-empty question text. -/
theorem c9_empty_question_is_noop (s : SessionState) (submit : Bool)
    (gen : String → String × ℚ) :
    (displayChatPage s submit "" gen).2 = false ∧
    (initSessionState s = s → displayChatPage s submit "" gen = (s, false)) ∧
    (∀ q, (displayChatPage s submit q gen).2 = true ↔ (submit = true ∧ q ≠ "")) := by
  refine ⟨?_, ?_, ?_⟩
  · simp [displayChatPage]
  · intro hinit
    simp [displayChatPage, hinit]
  · intro q
    by_cases h : submit = true ∧ q ≠ ""
    · simp [displayChatPage, h]
    · simp [displayChatPage, h]

/-- C9 witness: a fully initialized concrete state with the button pressed and
an empty question; the state is returned unchanged and no call happens. -/
theorem c9_empty_question_is_noop_witness :
    (initSessionState ⟨some "q0", some "a0", some 1, some false⟩ =
        ⟨some "q0", some "a0", some 1, some false⟩ →
      displayChatPage ⟨some "q0", some "a0", some 1, some false⟩ true ""
          (fun q => (q, 1)) =
        (⟨some "q0", some "a0", some 1, some false⟩, false)) ∧
    displayChatPage ⟨some "q0", some "a0", some 1, some false⟩ true ""
        (fun q => (q, 1)) =
      (⟨some "q0", some "a0", some 1, some false⟩, false) :=
  have h := c9_empty_question_is_noop ⟨some "q0", some "a0", some 1, some false⟩ true
    (fun q => (q, 1))
  ⟨h.2.1, h.2.1 rfl⟩

/-! ## C5 — analytics ignore records without feedback -/

/-- C5: a record whose `accuracyScore` is absent contributes to none of the
analytics views: inserting it anywhere in the history leaves the whole
metrics-analysis output unchanged. -/
theorem c5_no_feedback_no_contribution (l1 l2 : List Record) (r : Record)
    (h : r.is_correct = none) :
    display_metrics_analysis (l1 ++ r :: l2) = display_metrics_analysis (l1 ++ l2) := by
  have hfil : analysisOf (l1 ++ r :: l2) = analysisOf (l1 ++ l2) := by
    simp [analysisOf, List.filter_append, List.filter_cons, h]
  simp only [display_metrics_analysis, hfil]

/-- C5 witness: inserting the concrete no-feedback record `rNoFeedback` into a
one-record history changes no analytics output. -/
theorem c5_no_feedback_no_contribution_witness :
    display_metrics_analysis ([rFull] ++ rNoFeedback :: []) =
      display_metrics_analysis ([rFull] ++ []) :=
  c5_no_feedback_no_contribution [rFull] [] rNoFeedback rfl

/-! ## C8 — empty analytics is a state, not an error -/

/-- C8: when no record has feedback, the metrics page is the explicit
unavailable state `none` (the warning branch), not an error; when at least one
record has feedback, every view is produced — in particular the accuracy
distribution may be empty (all labels unobserved) while the other views, such
as the efficiency ranking, are still computed. -/
theorem c8_empty_distribution_state (history : List Record) :
    (analysisOf history = [] → display_metrics_analysis history = none) ∧
    (analysisOf history ≠ [] →
      ∃ v, display_metrics_analysis history = some v ∧
        v.accuracy_counts = accuracyCountsView (analysisOf history) ∧
        v.top_efficiency_chart = efficiencyView (analysisOf history)) := by
  constructor
  · intro h
    simp [display_metrics_analysis, h]
  · intro h
    refine ⟨{ accuracy_counts := accuracyCountsView (analysisOf history)
              scatter_views := scatterViewsOf (analysisOf history)
              metrics_stats := describeStatsView (analysisOf history)
              accuracy_groups := groupedAveragesView (analysisOf history)
              top_efficiency_chart := efficiencyView (analysisOf history) }, ?_, rfl, rfl⟩
    simp [display_metrics_analysis, h]

/-- C8 witness: the feedback-free history `[rNoFeedback]` yields the explicit
`none` state, and the history `[rOddScore]` (feedback present, but its score
maps to no label, so the distribution is empty) still yields a full `some`
result. -/
theorem c8_empty_distribution_state_witness :
    display_metrics_analysis [rNoFeedback] = none ∧
    (∃ v, display_metrics_analysis [rOddScore] = some v ∧
      v.accuracy_counts = accuracyCountsView (analysisOf [rOddScore]) ∧
      v.top_efficiency_chart = efficiencyView (analysisOf [rOddScore])) :=
  ⟨(c8_empty_distribution_state [rNoFeedback]).1 (by decide),
   (c8_empty_distribution_state [rOddScore]).2 (by decide)⟩

/-! ## C10 — out-of-range accuracy scores -/

/-- C10: a feedback-bearing record whose stored score is outside {1, 1/2, 0}
maps to no accuracy label, so it is excluded from the accuracy distribution and
from every grouped-average cell; yet it is scored in the efficiency ranking
with `accuracyScore / (responseTimeSeconds + 0.1)` and the ranking view is
computed. -/
theorem c10_unlabeled_still_ranked (l1 l2 : List Record) (r : Record) (v t : ℚ)
    (hv : r.is_correct = some v) (h1 : v ≠ 1) (h2 : v ≠ 1/2) (h0 : v ≠ 0)
    (ht : r.response_time = some t) :
    accuracyCountsView (analysisOf (l1 ++ r :: l2)) =
      accuracyCountsView (analysisOf (l1 ++ l2)) ∧
    (∀ lab c, groupMean (analysisOf (l1 ++ r :: l2)) lab c =
      groupMean (analysisOf (l1 ++ l2)) lab c) ∧
    (r, v / (t + 1/10)) ∈ scoredRecords (analysisOf (l1 ++ r :: l2)) ∧
    (∃ chart, efficiencyView (analysisOf (l1 ++ r :: l2)) = some chart) := by
  have h1s : (1 : ℚ) ≠ v := Ne.symm h1
  have h2s : (1/2 : ℚ) ≠ v := Ne.symm h2
  have h0s : (0 : ℚ) ≠ v := Ne.symm h0
  have h2i : (2⁻¹ : ℚ) ≠ v := by
    rw [← one_div]
    exact h2s
  have hlab : accuracyLabel r = none := by
    simp [accuracyLabel, hv, accuracy_labels, List.find?, h1s, h2s, h2i, h0s]
  have hsplit : analysisOf (l1 ++ r :: l2) = analysisOf l1 ++ r :: analysisOf l2 := by
    simp [analysisOf, List.filter_append, List.filter_cons, hv]
  have hcnt : ∀ lab : String,
      (analysisOf (l1 ++ r :: l2)).filter (fun x => decide (accuracyLabel x = some lab)) =
        (analysisOf (l1 ++ l2)).filter (fun x => decide (accuracyLabel x = some lab)) := by
    intro lab
    rw [hsplit]
    simp [analysisOf, List.filter_append, List.filter_cons, hlab]
  have hr : r ∈ analysisOf (l1 ++ r :: l2) := by
    rw [hsplit]
    simp
  refine ⟨?_, ?_, ?_, ?_⟩
  · simp only [accuracyCountsView]
    simp only [hcnt]
  · intro lab c
    simp only [groupMean]
    simp only [hcnt]
  · exact List.mem_map.mpr ⟨r, hr, by simp [efficiency_score, hv, ht]⟩
  · have hany : (analysisOf (l1 ++ r :: l2)).any (fun x => x.response_time.isSome) = true :=
      List.any_eq_true.mpr ⟨r, hr, by simp [ht]⟩
    exact ⟨(topEfficiency (analysisOf (l1 ++ r :: l2))).map (fun p => (p.1.id, p.2)),
      by simp [efficiencyView, hany]⟩

/-- C10 witness: the theorem applied to the concrete record `rOddScore`
(score 3/4, response time 1) inserted after `rFull`, with the
grouped-average clause instantiated at group "Accurate", column
"response_time". -/
theorem c10_unlabeled_still_ranked_witness :
    accuracyCountsView (analysisOf ([rFull] ++ rOddScore :: [])) =
      accuracyCountsView (analysisOf ([rFull] ++ [])) ∧
    groupMean (analysisOf ([rFull] ++ rOddScore :: [])) "Accurate" "response_time" =
      groupMean (analysisOf ([rFull] ++ [])) "Accurate" "response_time" ∧
    (rOddScore, (3/4 : ℚ) / (1 + 1/10)) ∈ scoredRecords (analysisOf ([rFull] ++ rOddScore :: [])) ∧
    (∃ chart, efficiencyView (analysisOf ([rFull] ++ rOddScore :: [])) = some chart) :=
  have h := c10_unlabeled_still_ranked [rFull] [] rOddScore (3/4) 1 rfl
    (by norm_num) (by norm_num) (by norm_num) rfl
  ⟨h.1, h.2.1 "Accurate" "response_time", h.2.2.1, h.2.2.2⟩

/-! ## C2 — efficiency ranking -/

/-- C2 counterexample: in the concrete two-record history `[rNoTime, rFull]`,
record id 1 has feedback but no `responseTimeSeconds`, yet the ranking not
only contains it but places it first with score `1 / (0 + 0.1) = 10` (the
`fillna(0)` at ui.py line 263); the claim states such a record is excluded
from the ranking, which would leave only `[(2, 10/11)]`. -/
theorem c2_missing_time_not_excluded :
    rNoTime.is_correct.isSome = true ∧ rNoTime.response_time = none ∧
    efficiencyView (analysisOf [rNoTime, rFull]) = some [(1, 10), (2, 10/11)] := by
  refine ⟨rfl, rfl, ?_⟩
  have h1 : efficiency_score rNoTime = 10 := by
    norm_num [efficiency_score, rNoTime]
  have h2 : efficiency_score rFull = 10/11 := by
    norm_num [efficiency_score, rFull]
  have ha : analysisOf [rNoTime, rFull] = [rNoTime, rFull] := by
    simp [analysisOf, rNoTime, rFull]
  have hge : effGE (rNoTime, efficiency_score rNoTime) (rFull, efficiency_score rFull) := by
    rw [effGE, h1, h2]
    norm_num
  have hany : List.any [rNoTime, rFull] (fun r => r.response_time.isSome) = true := rfl
  rw [ha]
  simp only [efficiencyView, hany, if_true, topEfficiency, scoredRecords,
    List.map_cons, List.map_nil, List.insertionSort, List.orderedInsert]
  rw [if_pos hge]
  simp only [List.map_cons, List.map_nil, List.take]
  rw [h1, h2]
  simp [rNoTime, rFull]

/-- C2 (amended): for a history in which at least one feedback-bearing record
has `responseTimeSeconds` present, the efficiency view is computed and is the
chart of the first 10 entries of the scored rows sorted by score descending:
the output is sorted descending, has `min 10 n` entries, extends by a
remainder scoring no higher to a permutation of all scored rows, and carries
each row's true efficiency score.  Records lacking `responseTimeSeconds` are
NOT excluded: every feedback-bearing record is scored, one without a response
time with `accuracyScore / (0 + 0.1)`.  (The source's unstable sort leaves the
relative order of equal scores unspecified; the model's stable sort is one
admissible order, and no part of this statement below depends on it.) -/
theorem c2_efficiency_ranking_top10 (history : List Record)
    (hsome : (analysisOf history).any (fun r => r.response_time.isSome) = true) :
    efficiencyView (analysisOf history) =
      some ((topEfficiency (analysisOf history)).map (fun p => (p.1.id, p.2))) ∧
    List.Sorted effGE (topEfficiency (analysisOf history)) ∧
    (topEfficiency (analysisOf history)).length = min 10 (analysisOf history).length ∧
    (∃ rest, (topEfficiency (analysisOf history) ++ rest).Perm
        (scoredRecords (analysisOf history)) ∧
      ∀ p ∈ topEfficiency (analysisOf history), ∀ q ∈ rest, q.2 ≤ p.2) ∧
    (∀ p ∈ topEfficiency (analysisOf history),
      p.1 ∈ analysisOf history ∧ p.2 = efficiency_score p.1) ∧
    (∀ r ∈ analysisOf history, (r, efficiency_score r) ∈ scoredRecords (analysisOf history) ∧
      (r.response_time = none → efficiency_score r = r.is_correct.getD 0 / (0 + 1/10))) := by
  have hsorted : List.Sorted effGE
      (List.insertionSort effGE (scoredRecords (analysisOf history))) :=
    List.sorted_insertionSort effGE (scoredRecords (analysisOf history))
  have hperm : (List.insertionSort effGE (scoredRecords (analysisOf history))).Perm
      (scoredRecords (analysisOf history)) :=
    List.perm_insertionSort effGE (scoredRecords (analysisOf history))
  refine ⟨?_, ?_, ?_, ?_, ?_, ?_⟩
  · simp [efficiencyView, hsome]
  · exact List.Pairwise.sublist (List.take_sublist 10 _) hsorted
  · rw [topEfficiency, List.length_take, hperm.length_eq, scoredRecords, List.length_map]
  · refine ⟨(List.insertionSort effGE (scoredRecords (analysisOf history))).drop 10, ?_, ?_⟩
    · rw [topEfficiency, List.take_append_drop]
      exact hperm
    · have hpa := hsorted
      rw [← List.take_append_drop 10
        (List.insertionSort effGE (scoredRecords (analysisOf history))),
        List.Sorted, List.pairwise_append] at hpa
      intro p hp q hq
      exact hpa.2.2 p hp q hq
  · intro p hp
    have hmem : p ∈ scoredRecords (analysisOf history) :=
      hperm.mem_iff.mp (List.take_subset 10 _ hp)
    obtain ⟨a, ha, hpa⟩ := List.mem_map.mp hmem
    constructor
    · rw [← hpa]
      exact ha
    · rw [← hpa]
  · intro r hr
    refine ⟨List.mem_map.mpr ⟨r, hr, rfl⟩, ?_⟩
    intro hnone
    simp [efficiency_score, hnone]

/-- C2 witness: the amended theorem applied to the concrete history
`[rNoTime, rFull]`, whose record id 2 has a response time present. -/
theorem c2_efficiency_ranking_top10_witness :
    efficiencyView (analysisOf [rNoTime, rFull]) =
      some ((topEfficiency (analysisOf [rNoTime, rFull])).map (fun p => (p.1.id, p.2))) ∧
    List.Sorted effGE (topEfficiency (analysisOf [rNoTime, rFull])) ∧
    (topEfficiency (analysisOf [rNoTime, rFull])).length =
      min 10 (analysisOf [rNoTime, rFull]).length ∧
    (∃ rest, (topEfficiency (analysisOf [rNoTime, rFull]) ++ rest).Perm
        (scoredRecords (analysisOf [rNoTime, rFull])) ∧
      ∀ p ∈ topEfficiency (analysisOf [rNoTime, rFull]), ∀ q ∈ rest, q.2 ≤ p.2) ∧
    (∀ p ∈ topEfficiency (analysisOf [rNoTime, rFull]),
      p.1 ∈ analysisOf [rNoTime, rFull] ∧ p.2 = efficiency_score p.1) ∧
    (∀ r ∈ analysisOf [rNoTime, rFull],
      (r, efficiency_score r) ∈ scoredRecords (analysisOf [rNoTime, rFull]) ∧
      (r.response_time = none → efficiency_score r = r.is_correct.getD 0 / (0 + 1/10))) :=
  c2_efficiency_ranking_top10 [rNoTime, rFull] rfl
